import Mathlib

/-!
Shallow embedding of `bot_functions/main.py` (classes `Bot`, `UpdateChat`,
`SentChat`): JSON payload values, the Python dict/list/string operations the
source uses (with Python's runtime-error behaviour made explicit in `Except`),
the `UpdateChat`/`SentChat` constructors, `UpdateChat.get_command`, and the
request body built by `Bot.send_message`.
-/

namespace Tg

/-- JSON values, as decoded Python objects: `None`, `bool`, `int`, `str`,
`list`, `dict` (insertion-ordered association list, as Python dicts are). -/
inductive Json where
  | null
  | bool (b : Bool)
  | int (n : Int)
  | str (s : String)
  | arr (xs : List Json)
  | obj (kvs : List (String × Json))

/-- Python runtime errors that the operations used in the source can raise. -/
inductive PyErr where
  | indexError
  | keyError
  | attributeError
  | typeError
deriving DecidableEq, Repr

/-- First value bound to a key in an association list (Python dict lookup;
keys in a dict are unique, so first match is the match). -/
def Json.assoc? : List (String × Json) → String → Option Json
  | [], _ => none
  | (k, v) :: rest, key => if k = key then some v else Json.assoc? rest key

/-- Python `d.get(key, dflt)`: only dicts have `.get` (anything else raises
`AttributeError`); returns `dflt` when the key is absent. -/
def pyGet (j : Json) (key : String) (dflt : Json) : Except PyErr Json :=
  match j with
  | .obj kvs => .ok ((Json.assoc? kvs key).getD dflt)
  | _ => .error .attributeError

/-- Python `x[0]` (integer subscript as used on the `entities` list): lists
index (raising `IndexError` when empty), strings yield a 1-character string,
dicts raise `KeyError` (JSON-decoded dicts have no integer keys), everything
else raises `TypeError`. -/
def pySubscriptZero (j : Json) : Except PyErr Json :=
  match j with
  | .arr [] => .error .indexError
  | .arr (x :: _) => .ok x
  | .str s =>
    match s.data with
    | [] => .error .indexError
    | c :: _ => .ok (.str (String.mk [c]))
  | .obj _ => .error .keyError
  | _ => .error .typeError

/-- Python `x[key]` with a string key: dicts look up (raising `KeyError` when
absent); lists and strings reject string subscripts with `TypeError`, as does
everything else. -/
def pySubscriptKey (j : Json) (key : String) : Except PyErr Json :=
  match j with
  | .obj kvs =>
    match Json.assoc? kvs key with
    | some v => .ok v
    | none => .error .keyError
  | _ => .error .typeError

/-- Using a JSON value as a Python integer operand (`+`): ints are ints,
bools coerce (`True` is 1), everything else raises `TypeError`. -/
def pyToInt (j : Json) : Except PyErr Int :=
  match j with
  | .int n => .ok n
  | .bool b => .ok (if b then 1 else 0)
  | _ => .error .typeError

/-- Effective index for a Python slice bound: negative indices count from the
end and clamp at 0, nonnegative ones clamp at the length. -/
def pyIdx (len : Nat) (i : Int) : Nat :=
  if i < 0 then ((len : Int) + i).toNat else min i.toNat len

/-- Python string slice `s[a:b]`. -/
def pySlice (s : String) (a b : Int) : String :=
  String.mk ((s.data.take (pyIdx s.data.length b)).drop (pyIdx s.data.length a))

/-- Python string slice `s[a:]`. -/
def pySliceFrom (s : String) (a : Int) : String :=
  String.mk (s.data.drop (pyIdx s.data.length a))

/-- Characters Python's `str.strip()` removes (ASCII whitespace). -/
def pySpace (c : Char) : Bool :=
  c = ' ' || c = '\t' || c = '\n' || c = '\r' || c = '\x0b' || c = '\x0c'

/-- Python `str.strip()` on a character list: drop whitespace from both ends. -/
def pyStripL (l : List Char) : List Char :=
  ((l.dropWhile pySpace).reverse.dropWhile pySpace).reverse

/-- Python `str.strip()`. -/
def pyStrip (s : String) : String :=
  String.mk (pyStripL s.data)

/-- Python `x[a:b]` on a JSON value: strings and lists slice, everything else
(including `None`) raises `TypeError`. -/
def pySliceJ (j : Json) (a b : Int) : Except PyErr Json :=
  match j with
  | .str s => .ok (.str (pySlice s a b))
  | .arr xs => .ok (.arr ((xs.take (pyIdx xs.length b)).drop (pyIdx xs.length a)))
  | _ => .error .typeError

/-- Python `x[a:]` on a JSON value. -/
def pySliceFromJ (j : Json) (a : Int) : Except PyErr Json :=
  match j with
  | .str s => .ok (.str (pySliceFrom s a))
  | .arr xs => .ok (.arr (xs.drop (pyIdx xs.length a)))
  | _ => .error .typeError

/-- Python `x.strip()` on a JSON value: only strings have `.strip`. -/
def pyStripJ (j : Json) : Except PyErr Json :=
  match j with
  | .str s => .ok (.str (pyStrip s))
  | _ => .error .attributeError

/-- Rendering of the token inside the f-string `f"...bot{token}"`:
`None` prints as `"None"`, a string prints as itself. -/
def pyFStr (t : Option String) : String :=
  match t with
  | some s => s
  | none => "None"

/-- The `Bot` object: the private token and the base URL, both set in
`Bot.__init__` and never mutated. -/
structure Bot where
  bot_token : Option String
  base_url : String
deriving Repr, DecidableEq

/-- `Bot.__init__(token)` (main.py lines 14-20): stores the token and builds
the base URL by f-string interpolation. It performs no validation and no
network call, so it never fails: a `None` token is interpolated as the text
`"None"`. -/
def Bot.init (token : Option String) : Except PyErr Bot :=
  .ok { bot_token := token, base_url := "https://api.telegram.org/bot" ++ pyFStr token }

/-- The `UpdateChat` object: fields assigned by `UpdateChat.__init__`
(main.py lines 92-116). Fields read with `.get` hold whatever JSON value was
found (or `None`). -/
structure UpdateChat where
  bot : Bot
  update_type : String
  from_id : Json
  text : Json
  message_type : Json
  entities : Json
  chat_id : Json
  message_id : Json

/-- `UpdateChat.__init__(update, token)` (main.py lines 92-116), with the
Python errors each step can raise made explicit. `update` is the decoded
payload dict as an insertion-ordered item list; `update_tuple[1]` is its
second item (raising `IndexError` when there is none). The source evaluates
`update_tuple[1][1].get("entities", [{}])` twice (lines 105-108); both
evaluations are identical and pure, so the binding is shared here. -/
def UpdateChat.mk' (update : List (String × Json)) (token : Option String) :
    Except PyErr UpdateChat := do
  let b ← Bot.init token
  match update.get? 1 with
  | none => .error .indexError
  | some (k, v) => do
    let from_obj ← pyGet v "from" (.obj [])
    let from_id ← pyGet from_obj "id" .null
    let text ← pyGet v "text" .null
    let entities ← pyGet v "entities" (.arr [.obj []])
    let ent0 ← pySubscriptZero entities
    let message_type ← pyGet ent0 "type" (.str "text")
    if k = "callback_query" then
      let msg ← pySubscriptKey v "message"
      let chat ← pyGet msg "chat" (.obj [])
      let chat_id ← pyGet chat "id" .null
      let message_id ← pyGet msg "message_id" .null
      .ok ⟨b, k, from_id, text, message_type, entities, chat_id, message_id⟩
    else
      let chat ← pyGet v "chat" (.obj [])
      let chat_id ← pyGet chat "id" .null
      let message_id ← pyGet v "message_id" .null
      .ok ⟨b, k, from_id, text, message_type, entities, chat_id, message_id⟩

/-- Result of `UpdateChat.get_command`: Python returns `None`, a single
sliced value, or a pair of the sliced value and the stripped remainder. -/
inductive CmdResult where
  | noCmd
  | one (j : Json)
  | pair (x y : Json)

/-- `UpdateChat.get_command(argument, only_start)` (main.py lines 135-162).
`start`/`end` are computed before any branch (lines 151-152); the text is
sliced only inside the branch that returns it, so a message whose command
entity is not leading returns `None` without touching `self.text`. The
source subscripts `self.__entities[0]` on both lines 151 and 152; the two
evaluations are identical and pure, so the binding is shared here. -/
def UpdateChat.get_command (self : UpdateChat) (argument only_start : Bool) :
    Except PyErr CmdResult := do
  match self.message_type with
  | .str s =>
    if s = "bot_command" then do
      let ent0 ← pySubscriptZero self.entities
      let joff ← pySubscriptKey ent0 "offset"
      let off ← pyToInt joff
      let jlen ← pySubscriptKey ent0 "length"
      let len ← pyToInt jlen
      let start : Int := off + 1
      let fin : Int := start + len - 1
      if only_start then
        if start = 1 then
          if !argument then
            let sl ← pySliceJ self.text start fin
            return .one sl
          else
            let sl ← pySliceJ self.text start fin
            let tl ← pySliceFromJ self.text fin
            let st ← pyStripJ tl
            return .pair sl st
        else
          return .noCmd
      else
        let sl ← pySliceJ self.text start fin
        return .one sl
    else
      return .noCmd
  | _ => return .noCmd

/-- Lowercase hexadecimal digit, as used by Python's `\uXXXX` escapes. -/
def hexDigit (n : Nat) : Char :=
  if n < 10 then Char.ofNat (48 + n) else Char.ofNat (87 + n)

/-- A `\uXXXX` escape for a code unit below `0x10000`. -/
def uEscape (n : Nat) : String :=
  "\\u" ++ String.mk [hexDigit (n / 4096 % 16), hexDigit (n / 256 % 16),
    hexDigit (n / 16 % 16), hexDigit (n % 16)]

/-- `json.dumps` escaping of one character (default `ensure_ascii=True`):
the two-character escapes for quote, backslash and common controls, `\uXXXX`
for other controls and all non-ASCII, surrogate pairs beyond the BMP. -/
def escChar (c : Char) : String :=
  if c = '"' then "\\\""
  else if c = '\\' then "\\\\"
  else if c = '\n' then "\\n"
  else if c = '\t' then "\\t"
  else if c = '\r' then "\\r"
  else if c = '\x08' then "\\b"
  else if c = '\x0c' then "\\f"
  else if c.toNat < 0x20 then uEscape c.toNat
  else if c.toNat < 0x7f then String.mk [c]
  else if c.toNat < 0x10000 then uEscape c.toNat
  else
    uEscape (0xd800 + (c.toNat - 0x10000) / 0x400) ++
      uEscape (0xdc00 + (c.toNat - 0x10000) % 0x400)

/-- `json.dumps` escaping of a string body. -/
def escString (s : String) : String :=
  String.join (s.data.map escChar)

/-- Python `json.dumps` with its defaults: separators `", "` and `": "`,
`ensure_ascii=True`, dict entries in insertion order. -/
def json_dumps : Json → String
  | .null => "null"
  | .bool true => "true"
  | .bool false => "false"
  | .int n => toString n
  | .str s => "\"" ++ escString s ++ "\""
  | .arr xs =>
    "[" ++ String.intercalate ", " (xs.attach.map fun x => json_dumps x.1) ++ "]"
  | .obj kvs =>
    "\x7b" ++ String.intercalate ", "
      (kvs.attach.map fun kv =>
        "\"" ++ escString kv.1.1 ++ "\": " ++ json_dumps kv.1.2) ++ "\x7d"
decreasing_by
  · have := List.sizeOf_lt_of_mem x.2
    simp only [Json.arr.sizeOf_spec]
    omega
  · have h1 := List.sizeOf_lt_of_mem kv.2
    rcases kv with ⟨⟨a, b⟩, hmem⟩
    simp only [Json.obj.sizeOf_spec, Prod.mk.sizeOf_spec] at h1 ⊢
    omega

/-- A JSON `None`-or-int, for the optional integer parameters of
`send_message` (`reply_to_message_id`, `message_thread_id`). -/
def optInt : Option Int → Json
  | some n => .int n
  | none => .null

/-- The request body dict built by `Bot.send_message` (main.py lines 51-64),
as an insertion-ordered item list. The source's dict literal writes the key
`"allow_sending_without_reply"` twice (lines 55 and 58): Python keeps the
first occurrence's position and the second occurrence's value, so the entry
sits in fourth position and holds the `allow_sending_without_reply`
parameter. `parse_mode` models the parameter whose Python default is
`"HTML"`; `none` models an explicit `None` argument, which line 53's guard
also replaces with `"HTML"`. `reply_markup` and `entities` pass through
`json.dumps` (lines 59 and 63); every other value is placed natively. -/
def Bot.send_message_data (chat_id : Int) (text : String)
    (message_thread_id : Option Int) (parse_mode : Option String)
    (entities : Json) (disable_web_page_preview : Bool)
    (disable_notification : Bool) (protect_content : Bool)
    (reply_to_message_id : Option Int) (allow_sending_without_reply : Bool)
    (reply_markup : Json) : List (String × Json) :=
  [("chat_id", .int chat_id),
   ("parse_mode", .str (parse_mode.getD "HTML")),
   ("text", .str text),
   ("allow_sending_without_reply", .bool allow_sending_without_reply),
   ("disable_web_page_preview", .bool disable_web_page_preview),
   ("reply_to_message_id", optInt reply_to_message_id),
   ("reply_markup", .str (json_dumps reply_markup)),
   ("disable_notification", .bool disable_notification),
   ("protect_content", .bool protect_content),
   ("message_thread_id", optInt message_thread_id),
   ("entities", .str (json_dumps entities))]

/-- The `SentChat` object: fields assigned by `SentChat.__init__`
(main.py lines 172-180). -/
structure SentChat where
  bot : Bot
  update_type : String
  from_id : Json
  chat_id : Json
  message_id : Json
  sent_text : Json

/-- `SentChat.__init__(token, sent_msg)` (main.py lines 172-180). Note that
line 180 assigns `self.sent_text = update_tuple[1][1].get("message_id")`, the
same expression as `self.message_id` on line 179. -/
def SentChat.mk' (token : Option String) (sent_msg : List (String × Json)) :
    Except PyErr SentChat := do
  let b ← Bot.init token
  match sent_msg.get? 1 with
  | none => .error .indexError
  | some (k, v) => do
    let from_obj ← pyGet v "from" (.obj [])
    let from_id ← pyGet from_obj "id" .null
    let chat ← pyGet v "chat" (.obj [])
    let chat_id ← pyGet chat "id" .null
    let message_id ← pyGet v "message_id" .null
    let sent_text ← pyGet v "message_id" .null
    .ok ⟨b, k, from_id, chat_id, message_id, sent_text⟩

theorem ok_bind {α β : Type} (a : α) (f : α → Except PyErr β) :
    (Except.ok a >>= f) = f a := rfl

theorem pure_ok {α : Type} (a : α) : (pure a : Except PyErr α) = .ok a := rfl

theorem bindE_ok {α β : Type} {x : Except PyErr α} {f : α → Except PyErr β}
    {b : β} (h : (x >>= f) = .ok b) : ∃ a, x = .ok a ∧ f a = .ok b := by
  cases x with
  | error e => exact Except.noConfusion h
  | ok a => exact ⟨a, rfl, h⟩

theorem pyGet_obj (kvs : List (String × Json)) (key : String) (d : Json) :
    pyGet (.obj kvs) key d = .ok ((Json.assoc? kvs key).getD d) := rfl

theorem pyGet_ok {j : Json} {key : String} {d r : Json}
    (h : pyGet j key d = .ok r) :
    ∃ kvs, j = .obj kvs ∧ r = (Json.assoc? kvs key).getD d := by
  cases j with
  | obj kvs =>
    refine ⟨kvs, rfl, ?_⟩
    injection h with h
    exact h.symm
  | null => exact Except.noConfusion h
  | bool b => exact Except.noConfusion h
  | int n => exact Except.noConfusion h
  | str s => exact Except.noConfusion h
  | arr xs => exact Except.noConfusion h

theorem pySubscriptZero_ok_obj {j : Json} {ekvs : List (String × Json)}
    (h : pySubscriptZero j = .ok (.obj ekvs)) :
    ∃ rest, j = .arr (.obj ekvs :: rest) := by
  cases j with
  | arr xs =>
    cases xs with
    | nil => exact Except.noConfusion h
    | cons x rest =>
      simp only [pySubscriptZero] at h
      cases h
      exact ⟨rest, rfl⟩
  | str s =>
    cases hd : s.data with
    | nil => rw [pySubscriptZero, hd] at h; exact Except.noConfusion h
    | cons c l =>
      rw [pySubscriptZero, hd] at h
      cases h
  | null => exact Except.noConfusion h
  | bool b => exact Except.noConfusion h
  | int n => exact Except.noConfusion h
  | obj kvs => exact Except.noConfusion h

theorem pySubscriptKey_obj_ok {kvs : List (String × Json)} {key : String}
    {r : Json} (h : pySubscriptKey (.obj kvs) key = .ok r) :
    Json.assoc? kvs key = some r := by
  rw [pySubscriptKey] at h
  cases ha : Json.assoc? kvs key with
  | none => rw [ha] at h; exact Except.noConfusion h
  | some v => rw [ha] at h; cases h; rfl

/-- Characterization of a successful `UpdateChat.mk'`: the payload's second
value must be a dict, the `from` value (or its `{}` default) a dict, the
`entities` value (or its `[{}]` default) a list headed by a dict, and every
stored field equals the source's defaulting lookup. -/
theorem mk'_ok_fields {update : List (String × Json)} {tok : Option String}
    {k : String} {v : Json} {s : UpdateChat}
    (hget : update.get? 1 = some (k, v))
    (h : UpdateChat.mk' update tok = .ok s) :
    ∃ kvs, v = .obj kvs ∧
      s.update_type = k ∧
      s.text = (Json.assoc? kvs "text").getD .null ∧
      s.entities = (Json.assoc? kvs "entities").getD (.arr [.obj []]) ∧
      (∃ fkvs, (Json.assoc? kvs "from").getD (.obj []) = .obj fkvs ∧
        s.from_id = (Json.assoc? fkvs "id").getD .null) ∧
      (∃ ekvs erest, s.entities = .arr (.obj ekvs :: erest) ∧
        s.message_type = (Json.assoc? ekvs "type").getD (.str "text")) ∧
      (if k = "callback_query" then
        ∃ mkvs, Json.assoc? kvs "message" = some (.obj mkvs) ∧
          (∃ ckvs, (Json.assoc? mkvs "chat").getD (.obj []) = .obj ckvs ∧
            s.chat_id = (Json.assoc? ckvs "id").getD .null) ∧
          s.message_id = (Json.assoc? mkvs "message_id").getD .null
      else
        (∃ ckvs, (Json.assoc? kvs "chat").getD (.obj []) = .obj ckvs ∧
          s.chat_id = (Json.assoc? ckvs "id").getD .null) ∧
        s.message_id = (Json.assoc? kvs "message_id").getD .null) := by
  simp only [UpdateChat.mk', Bot.init, ok_bind, hget] at h
  obtain ⟨from_obj, h1, h⟩ := bindE_ok h
  obtain ⟨kvs, rfl, rfl⟩ := pyGet_ok h1
  obtain ⟨from_id, h2, h⟩ := bindE_ok h
  obtain ⟨fkvs, hfe, rfl⟩ := pyGet_ok h2
  simp only [pyGet_obj, ok_bind] at h
  obtain ⟨ent0, h4, h⟩ := bindE_ok h
  obtain ⟨mt, h5, h⟩ := bindE_ok h
  obtain ⟨ekvs, rfl, rfl⟩ := pyGet_ok h5
  obtain ⟨erest, hent⟩ := pySubscriptZero_ok_obj h4
  by_cases hk : k = "callback_query"
  · rw [if_pos hk] at h
    obtain ⟨jm, h6, h⟩ := bindE_ok h
    have h6' := pySubscriptKey_obj_ok h6
    obtain ⟨mchat, h7, h⟩ := bindE_ok h
    obtain ⟨mkvs, rfl, rfl⟩ := pyGet_ok h7
    obtain ⟨cid, h8, h⟩ := bindE_ok h
    obtain ⟨ckvs, hce, rfl⟩ := pyGet_ok h8
    simp only [pyGet_obj, ok_bind] at h
    injection h with h
    subst h
    refine ⟨kvs, rfl, rfl, rfl, rfl, ⟨fkvs, hfe, rfl⟩,
      ⟨ekvs, erest, hent, rfl⟩, ?_⟩
    rw [if_pos hk]
    exact ⟨mkvs, h6', ⟨ckvs, hce, rfl⟩, rfl⟩
  · rw [if_neg hk] at h
    obtain ⟨cid, h8, h⟩ := bindE_ok h
    obtain ⟨ckvs, hce, rfl⟩ := pyGet_ok h8
    injection h with h
    subst h
    refine ⟨kvs, rfl, rfl, rfl, rfl, ⟨fkvs, hfe, rfl⟩,
      ⟨ekvs, erest, hent, rfl⟩, ?_⟩
    rw [if_neg hk]
    exact ⟨⟨ckvs, hce, rfl⟩, rfl⟩

/-- Any message whose `message_type` is a string other than `"bot_command"`
makes `get_command` return `None` on its first line, for all flags. -/
theorem get_command_not_bot_command {s : UpdateChat} {t : String}
    (hmt : s.message_type = .str t) (h : t ≠ "bot_command")
    (argument only_start : Bool) :
    s.get_command argument only_start = .ok .noCmd := by
  simp only [UpdateChat.get_command, hmt]
  rw [if_neg h]
  rfl

/-- Full evaluation of `get_command` on a command message whose first entity
carries integer `offset` and `length` and whose text is a string. -/
theorem get_command_bot_command {s : UpdateChat} {ekvs : List (String × Json)}
    {erest : List Json} {off len : Int} {t : String}
    (hmt : s.message_type = .str "bot_command")
    (hents : s.entities = .arr (.obj ekvs :: erest))
    (hoff : Json.assoc? ekvs "offset" = some (.int off))
    (hlen : Json.assoc? ekvs "length" = some (.int len))
    (htext : s.text = .str t) (argument only_start : Bool) :
    s.get_command argument only_start =
      if only_start then
        if off + 1 = 1 then
          if !argument then
            .ok (.one (.str (pySlice t (off + 1) (off + 1 + len - 1))))
          else
            .ok (.pair (.str (pySlice t (off + 1) (off + 1 + len - 1)))
              (.str (pyStrip (pySliceFrom t (off + 1 + len - 1)))))
        else .ok .noCmd
      else .ok (.one (.str (pySlice t (off + 1) (off + 1 + len - 1)))) := by
  simp only [UpdateChat.get_command, hmt, if_true]
  simp only [hents, pySubscriptZero, ok_bind, pySubscriptKey, hoff, hlen,
    pyToInt, htext, pySliceJ, pySliceFromJ, pyStripJ, pure_ok]

/-- Effective Python slice index for a nonnegative bound within range. -/
theorem pyIdx_eq {L : Nat} {i : Int} {n : Nat} (h1 : i = n) (h2 : n ≤ L) :
    pyIdx L i = n := by
  unfold pyIdx
  rw [if_neg (by omega)]
  omega

/-- Slicing `"/name…"` from 1 to `len(name)+1` yields exactly the name. -/
theorem pySlice_cmd (name rest : String) :
    pySlice ("/" ++ name ++ rest) 1 ((name.length : Int) + 1) = name := by
  have hd : ("/" ++ name ++ rest).data = '/' :: (name.data ++ rest.data) := by
    simp [String.data_append]
  have hlen : name.length = name.data.length := rfl
  unfold pySlice
  rw [hd]
  have hL : ('/' :: (name.data ++ rest.data)).length
      = name.data.length + rest.data.length + 1 := by
    simp [List.length_cons, List.length_append]
  rw [pyIdx_eq (i := (name.length : Int) + 1) (n := name.data.length + 1)
      (by omega) (by omega),
    pyIdx_eq (i := 1) (n := 1) (by omega) (by omega)]
  rw [List.take_succ_cons, List.take_left]
  rfl

/-- Slicing `"/name…"` from `len(name)+1` yields exactly the remainder. -/
theorem pySliceFrom_cmd (name rest : String) :
    pySliceFrom ("/" ++ name ++ rest) ((name.length : Int) + 1) = rest := by
  have hd : ("/" ++ name ++ rest).data = '/' :: (name.data ++ rest.data) := by
    simp [String.data_append]
  have hlen : name.length = name.data.length := rfl
  unfold pySliceFrom
  rw [hd]
  have hL : ('/' :: (name.data ++ rest.data)).length
      = name.data.length + rest.data.length + 1 := by
    simp [List.length_cons, List.length_append]
  rw [pyIdx_eq (i := (name.length : Int) + 1) (n := name.data.length + 1)
      (by omega) (by omega)]
  rw [List.drop_succ_cons, List.drop_left]

/-- Stripping ignores one leading space. -/
theorem pyStripL_cons_space (l : List Char) :
    pyStripL (' ' :: l) = pyStripL l := by
  unfold pyStripL
  rw [List.dropWhile_cons]
  simp [pySpace]

/-- Stripping a whitespace-only list leaves nothing. -/
theorem pyStripL_all_space {l : List Char} (h : ∀ c ∈ l, pySpace c = true) :
    pyStripL l = [] := by
  unfold pyStripL
  rw [List.dropWhile_eq_nil_iff.mpr h]
  rfl

/-- C1: for every message update whose text is `"/name arg"` and whose first
entity has type `"bot_command"`, offset 0 and length `len(name)+1`, calling
`get_command` with `want_argument=True` and `only_leading=True` returns
exactly the pair `(name, arg)`, the argument being the text after the
command substring with surrounding whitespace trimmed. -/
theorem leading_command_returns_name_and_argument
    (update : List (String × Json)) (tok : Option String) (k : String)
    (kvs ekvs : List (String × Json)) (erest : List Json)
    (name arg : String) (s : UpdateChat)
    (hok : UpdateChat.mk' update tok = .ok s)
    (hget : update.get? 1 = some (k, .obj kvs))
    (htext : Json.assoc? kvs "text" = some (.str ("/" ++ name ++ " " ++ arg)))
    (hents : Json.assoc? kvs "entities" = some (.arr (.obj ekvs :: erest)))
    (htype : Json.assoc? ekvs "type" = some (.str "bot_command"))
    (hoff : Json.assoc? ekvs "offset" = some (.int 0))
    (hlen : Json.assoc? ekvs "length" = some (.int (name.length + 1)))
    (harg : pyStrip arg = arg) :
    s.get_command true true = .ok (.pair (.str name) (.str arg)) := by
  obtain ⟨kvs', hv, _, htxt, hent, _, ⟨ekvs', erest', hents', hmt⟩, _⟩ :=
    mk'_ok_fields hget hok
  injection hv with hv
  subst hv
  rw [htext, Option.getD_some] at htxt
  rw [hents, Option.getD_some] at hent
  rw [hent] at hents'
  injection hents' with h
  injection h with h1 h2
  injection h1 with h1
  subst h1
  subst h2
  rw [htype, Option.getD_some] at hmt
  have hstrip : pyStrip (" " ++ arg) = arg := by
    have hd : (" " ++ arg).data = ' ' :: arg.data := by
      rw [String.data_append]
      rfl
    unfold pyStrip
    rw [hd, pyStripL_cons_space]
    exact harg
  rw [get_command_bot_command hmt hent hoff hlen htxt true true]
  rw [if_pos rfl, if_pos (by norm_num : (0 : Int) + 1 = 1), if_neg (by decide)]
  have e2 : (0 : Int) + 1 + ((name.length : Int) + 1) - 1 = (name.length : Int) + 1 := by
    ring
  rw [e2, (by norm_num : (0 : Int) + 1 = 1)]
  rw [String.append_assoc ("/" ++ name) " " arg]
  rw [pySlice_cmd, pySliceFrom_cmd, hstrip]

/-- Witness for C1: the spec's scenario payload with text `"/go foo"` and a
leading bot_command entity of length 3 yields `("go", "foo")`. -/
theorem leading_command_returns_name_and_argument_witness :
    UpdateChat.mk'
      [("update_id", .int 1),
       ("message", .obj
         [("message_id", .int 5), ("chat", .obj [("id", .int 42)]),
          ("from", .obj [("id", .int 7)]), ("text", .str "/go foo"),
          ("entities", .arr [.obj
            [("type", .str "bot_command"), ("offset", .int 0),
             ("length", .int 3)]])])] none =
      .ok ⟨⟨none, "https://api.telegram.org/botNone"⟩, "message", .int 7,
        .str "/go foo", .str "bot_command",
        .arr [.obj [("type", .str "bot_command"), ("offset", .int 0),
          ("length", .int 3)]], .int 42, .int 5⟩ ∧
    UpdateChat.get_command
      ⟨⟨none, "https://api.telegram.org/botNone"⟩, "message", .int 7,
        .str "/go foo", .str "bot_command",
        .arr [.obj [("type", .str "bot_command"), ("offset", .int 0),
          ("length", .int 3)]], .int 42, .int 5⟩ true true =
      .ok (.pair (.str "go") (.str "foo")) := by
  have h : UpdateChat.mk'
      [("update_id", .int 1),
       ("message", .obj
         [("message_id", .int 5), ("chat", .obj [("id", .int 42)]),
          ("from", .obj [("id", .int 7)]), ("text", .str "/go foo"),
          ("entities", .arr [.obj
            [("type", .str "bot_command"), ("offset", .int 0),
             ("length", .int 3)]])])] none =
      .ok ⟨⟨none, "https://api.telegram.org/botNone"⟩, "message", .int 7,
        .str "/go foo", .str "bot_command",
        .arr [.obj [("type", .str "bot_command"), ("offset", .int 0),
          ("length", .int 3)]], .int 42, .int 5⟩ := rfl
  exact ⟨h, leading_command_returns_name_and_argument _ none "message" _ _ _
    "go" "foo" _ h rfl rfl rfl rfl rfl rfl rfl⟩

/-- C2: for every update whose kind payload has no `entities` key, the
constructed update's `message_type` is `"text"` and `get_command` returns
`None` for every combination of the two flags, without raising. -/
theorem no_entities_text_and_no_command
    (update : List (String × Json)) (tok : Option String) (k : String)
    (kvs : List (String × Json)) (s : UpdateChat)
    (hok : UpdateChat.mk' update tok = .ok s)
    (hget : update.get? 1 = some (k, .obj kvs))
    (hne : Json.assoc? kvs "entities" = none) :
    s.message_type = .str "text" ∧
      ∀ argument only_start, s.get_command argument only_start = .ok .noCmd := by
  obtain ⟨kvs', hv, _, _, hent, _, ⟨ekvs, erest, hents', hmt⟩, _⟩ :=
    mk'_ok_fields hget hok
  injection hv with hv
  subst hv
  rw [hne, Option.getD_none] at hent
  rw [hent] at hents'
  injection hents' with h
  injection h with h1 h2
  injection h1 with h1
  subst h1
  have hmt' : s.message_type = .str "text" := hmt
  exact ⟨hmt', fun a o => get_command_not_bot_command hmt' (by decide) a o⟩

/-- Witness for C2: the spec's second scenario (text `"hello"`, no
`entities` key) has message_type `"text"` and no command under all four
flag combinations. -/
theorem no_entities_text_and_no_command_witness :
    UpdateChat.mk'
      [("update_id", .int 1),
       ("message", .obj
         [("message_id", .int 5), ("chat", .obj [("id", .int 42)]),
          ("from", .obj [("id", .int 7)]), ("text", .str "hello")])] none =
      .ok ⟨⟨none, "https://api.telegram.org/botNone"⟩, "message", .int 7,
        .str "hello", .str "text", .arr [.obj []], .int 42, .int 5⟩ ∧
    UpdateChat.message_type
      ⟨⟨none, "https://api.telegram.org/botNone"⟩, "message", .int 7,
        .str "hello", .str "text", .arr [.obj []], .int 42, .int 5⟩ =
      .str "text" ∧
    UpdateChat.get_command
      ⟨⟨none, "https://api.telegram.org/botNone"⟩, "message", .int 7,
        .str "hello", .str "text", .arr [.obj []], .int 42, .int 5⟩ true true =
      .ok .noCmd ∧
    UpdateChat.get_command
      ⟨⟨none, "https://api.telegram.org/botNone"⟩, "message", .int 7,
        .str "hello", .str "text", .arr [.obj []], .int 42, .int 5⟩ true false =
      .ok .noCmd ∧
    UpdateChat.get_command
      ⟨⟨none, "https://api.telegram.org/botNone"⟩, "message", .int 7,
        .str "hello", .str "text", .arr [.obj []], .int 42, .int 5⟩ false true =
      .ok .noCmd ∧
    UpdateChat.get_command
      ⟨⟨none, "https://api.telegram.org/botNone"⟩, "message", .int 7,
        .str "hello", .str "text", .arr [.obj []], .int 42, .int 5⟩ false false =
      .ok .noCmd := by
  have h : UpdateChat.mk'
      [("update_id", .int 1),
       ("message", .obj
         [("message_id", .int 5), ("chat", .obj [("id", .int 42)]),
          ("from", .obj [("id", .int 7)]), ("text", .str "hello")])] none =
      .ok ⟨⟨none, "https://api.telegram.org/botNone"⟩, "message", .int 7,
        .str "hello", .str "text", .arr [.obj []], .int 42, .int 5⟩ := rfl
  have happ := no_entities_text_and_no_command _ none "message" _ _ h rfl rfl
  exact ⟨h, happ.1, happ.2 true true, happ.2 true false, happ.2 false true,
    happ.2 false false⟩

/-- C3: for every update whose first entity has type `"bot_command"` and
offset strictly greater than 0, `get_command` with `only_leading=True`
returns `None`, and with `only_leading=False` returns the command-name
substring (text sliced from `offset+1` to `offset+length`), for either
value of `want_argument`. -/
theorem nonleading_command_behavior
    (update : List (String × Json)) (tok : Option String) (k : String)
    (kvs ekvs : List (String × Json)) (erest : List Json)
    (off len : Int) (t : String) (s : UpdateChat)
    (hok : UpdateChat.mk' update tok = .ok s)
    (hget : update.get? 1 = some (k, .obj kvs))
    (htext : Json.assoc? kvs "text" = some (.str t))
    (hents : Json.assoc? kvs "entities" = some (.arr (.obj ekvs :: erest)))
    (htype : Json.assoc? ekvs "type" = some (.str "bot_command"))
    (hoff : Json.assoc? ekvs "offset" = some (.int off))
    (hlen : Json.assoc? ekvs "length" = some (.int len))
    (hpos : 0 < off) :
    (∀ argument, s.get_command argument true = .ok .noCmd) ∧
      (∀ argument, s.get_command argument false =
        .ok (.one (.str (pySlice t (off + 1) (off + len))))) := by
  obtain ⟨kvs', hv, _, htxt, hent, _, ⟨ekvs', erest', hents', hmt⟩, _⟩ :=
    mk'_ok_fields hget hok
  injection hv with hv
  subst hv
  rw [htext, Option.getD_some] at htxt
  rw [hents, Option.getD_some] at hent
  rw [hent] at hents'
  injection hents' with h
  injection h with h1 h2
  injection h1 with h1
  subst h1
  subst h2
  rw [htype, Option.getD_some] at hmt
  have e2 : off + 1 + len - 1 = off + len := by ring
  constructor
  · intro argument
    rw [get_command_bot_command hmt hent hoff hlen htxt argument true]
    rw [if_pos rfl, if_neg (by omega : ¬ off + 1 = 1)]
  · intro argument
    rw [get_command_bot_command hmt hent hoff hlen htxt argument false]
    rw [if_neg (by decide : ¬ false = true), e2]

/-- Witness for C3: text `"see /go foo"` with a bot_command entity at
offset 4, length 3: leading-only lookup is absent, non-leading lookup
returns `"go"` for both values of the argument flag. -/
theorem nonleading_command_behavior_witness :
    UpdateChat.mk'
      [("update_id", .int 2),
       ("message", .obj
         [("message_id", .int 6), ("chat", .obj [("id", .int 43)]),
          ("text", .str "see /go foo"),
          ("entities", .arr [.obj
            [("type", .str "bot_command"), ("offset", .int 4),
             ("length", .int 3)]])])] none =
      .ok ⟨⟨none, "https://api.telegram.org/botNone"⟩, "message", .null,
        .str "see /go foo", .str "bot_command",
        .arr [.obj [("type", .str "bot_command"), ("offset", .int 4),
          ("length", .int 3)]], .int 43, .int 6⟩ ∧
    UpdateChat.get_command
      ⟨⟨none, "https://api.telegram.org/botNone"⟩, "message", .null,
        .str "see /go foo", .str "bot_command",
        .arr [.obj [("type", .str "bot_command"), ("offset", .int 4),
          ("length", .int 3)]], .int 43, .int 6⟩ true true = .ok .noCmd ∧
    UpdateChat.get_command
      ⟨⟨none, "https://api.telegram.org/botNone"⟩, "message", .null,
        .str "see /go foo", .str "bot_command",
        .arr [.obj [("type", .str "bot_command"), ("offset", .int 4),
          ("length", .int 3)]], .int 43, .int 6⟩ false true = .ok .noCmd ∧
    UpdateChat.get_command
      ⟨⟨none, "https://api.telegram.org/botNone"⟩, "message", .null,
        .str "see /go foo", .str "bot_command",
        .arr [.obj [("type", .str "bot_command"), ("offset", .int 4),
          ("length", .int 3)]], .int 43, .int 6⟩ true false =
      .ok (.one (.str "go")) ∧
    UpdateChat.get_command
      ⟨⟨none, "https://api.telegram.org/botNone"⟩, "message", .null,
        .str "see /go foo", .str "bot_command",
        .arr [.obj [("type", .str "bot_command"), ("offset", .int 4),
          ("length", .int 3)]], .int 43, .int 6⟩ false false =
      .ok (.one (.str "go")) := by
  have h : UpdateChat.mk'
      [("update_id", .int 2),
       ("message", .obj
         [("message_id", .int 6), ("chat", .obj [("id", .int 43)]),
          ("text", .str "see /go foo"),
          ("entities", .arr [.obj
            [("type", .str "bot_command"), ("offset", .int 4),
             ("length", .int 3)]])])] none =
      .ok ⟨⟨none, "https://api.telegram.org/botNone"⟩, "message", .null,
        .str "see /go foo", .str "bot_command",
        .arr [.obj [("type", .str "bot_command"), ("offset", .int 4),
          ("length", .int 3)]], .int 43, .int 6⟩ := rfl
  obtain ⟨hA, hB⟩ := nonleading_command_behavior _ none "message" _ _ _
    4 3 "see /go foo" _ h rfl rfl rfl rfl rfl rfl (by norm_num)
  exact ⟨h, hA true, hA false, (hB true).trans rfl, (hB false).trans rfl⟩

/-- C8: for every leading command message whose text after the command
substring is whitespace-only (or empty), `get_command` with
`want_argument=True` and `only_leading=True` returns the command name
paired with the empty string. -/
theorem whitespace_only_argument_empty
    (update : List (String × Json)) (tok : Option String) (k : String)
    (kvs ekvs : List (String × Json)) (erest : List Json)
    (name ws : String) (s : UpdateChat)
    (hok : UpdateChat.mk' update tok = .ok s)
    (hget : update.get? 1 = some (k, .obj kvs))
    (htext : Json.assoc? kvs "text" = some (.str ("/" ++ name ++ ws)))
    (hents : Json.assoc? kvs "entities" = some (.arr (.obj ekvs :: erest)))
    (htype : Json.assoc? ekvs "type" = some (.str "bot_command"))
    (hoff : Json.assoc? ekvs "offset" = some (.int 0))
    (hlen : Json.assoc? ekvs "length" = some (.int (name.length + 1)))
    (hws : ∀ c ∈ ws.data, pySpace c = true) :
    s.get_command true true = .ok (.pair (.str name) (.str "")) := by
  obtain ⟨kvs', hv, _, htxt, hent, _, ⟨ekvs', erest', hents', hmt⟩, _⟩ :=
    mk'_ok_fields hget hok
  injection hv with hv
  subst hv
  rw [htext, Option.getD_some] at htxt
  rw [hents, Option.getD_some] at hent
  rw [hent] at hents'
  injection hents' with h
  injection h with h1 h2
  injection h1 with h1
  subst h1
  subst h2
  rw [htype, Option.getD_some] at hmt
  have hstrip : pyStrip ws = "" := by
    unfold pyStrip
    rw [pyStripL_all_space hws]
  rw [get_command_bot_command hmt hent hoff hlen htxt true true]
  rw [if_pos rfl, if_pos (by norm_num : (0 : Int) + 1 = 1), if_neg (by decide)]
  have e2 : (0 : Int) + 1 + ((name.length : Int) + 1) - 1 = (name.length : Int) + 1 := by
    ring
  rw [e2, (by norm_num : (0 : Int) + 1 = 1)]
  rw [pySlice_cmd, pySliceFrom_cmd, hstrip]

/-- Witness for C8: text `"/go   "` (three trailing spaces) with a leading
bot_command entity of length 3 yields `("go", "")`. -/
theorem whitespace_only_argument_empty_witness :
    UpdateChat.mk'
      [("update_id", .int 3),
       ("message", .obj
         [("message_id", .int 7), ("chat", .obj [("id", .int 44)]),
          ("text", .str "/go   "),
          ("entities", .arr [.obj
            [("type", .str "bot_command"), ("offset", .int 0),
             ("length", .int 3)]])])] none =
      .ok ⟨⟨none, "https://api.telegram.org/botNone"⟩, "message", .null,
        .str "/go   ", .str "bot_command",
        .arr [.obj [("type", .str "bot_command"), ("offset", .int 0),
          ("length", .int 3)]], .int 44, .int 7⟩ ∧
    UpdateChat.get_command
      ⟨⟨none, "https://api.telegram.org/botNone"⟩, "message", .null,
        .str "/go   ", .str "bot_command",
        .arr [.obj [("type", .str "bot_command"), ("offset", .int 0),
          ("length", .int 3)]], .int 44, .int 7⟩ true true =
      .ok (.pair (.str "go") (.str "")) := by
  have h : UpdateChat.mk'
      [("update_id", .int 3),
       ("message", .obj
         [("message_id", .int 7), ("chat", .obj [("id", .int 44)]),
          ("text", .str "/go   "),
          ("entities", .arr [.obj
            [("type", .str "bot_command"), ("offset", .int 0),
             ("length", .int 3)]])])] none =
      .ok ⟨⟨none, "https://api.telegram.org/botNone"⟩, "message", .null,
        .str "/go   ", .str "bot_command",
        .arr [.obj [("type", .str "bot_command"), ("offset", .int 0),
          ("length", .int 3)]], .int 44, .int 7⟩ := rfl
  exact ⟨h, whitespace_only_argument_empty _ none "message" _ _ _
    "go" "   " _ h rfl rfl rfl rfl rfl rfl (by decide)⟩

/-- C4: for every well-formed payload with at least two top-level keys,
when the second key is `"callback_query"` the constructed update's
`chat_id`/`message_id` come from the nested `callback_query.message`
object; for every other kind they come from the kind payload directly. -/
theorem chat_and_message_id_extraction
    (update : List (String × Json)) (tok : Option String) :
    (∀ kvs mkvs ckvs cid mid s,
      UpdateChat.mk' update tok = .ok s →
      update.get? 1 = some ("callback_query", .obj kvs) →
      Json.assoc? kvs "message" = some (.obj mkvs) →
      Json.assoc? mkvs "chat" = some (.obj ckvs) →
      Json.assoc? ckvs "id" = some cid →
      Json.assoc? mkvs "message_id" = some mid →
      s.chat_id = cid ∧ s.message_id = mid) ∧
    (∀ k kvs ckvs cid mid s,
      UpdateChat.mk' update tok = .ok s →
      update.get? 1 = some (k, .obj kvs) →
      k ≠ "callback_query" →
      Json.assoc? kvs "chat" = some (.obj ckvs) →
      Json.assoc? ckvs "id" = some cid →
      Json.assoc? kvs "message_id" = some mid →
      s.chat_id = cid ∧ s.message_id = mid) := by
  constructor
  · intro kvs mkvs ckvs cid mid s hok hget hmsg hchat hcid hmid
    obtain ⟨kvs', hv, _, _, _, _, _, hif⟩ := mk'_ok_fields hget hok
    injection hv with hv
    subst hv
    rw [if_pos rfl] at hif
    obtain ⟨mkvs', hmsg', ⟨ckvs', hchat', hc⟩, hm⟩ := hif
    rw [hmsg] at hmsg'
    injection hmsg' with h
    injection h with h
    subst h
    rw [hchat, Option.getD_some] at hchat'
    injection hchat' with h
    subst h
    rw [hcid, Option.getD_some] at hc
    rw [hmid, Option.getD_some] at hm
    exact ⟨hc, hm⟩
  · intro k kvs ckvs cid mid s hok hget hk hchat hcid hmid
    obtain ⟨kvs', hv, _, _, _, _, _, hif⟩ := mk'_ok_fields hget hok
    injection hv with hv
    subst hv
    rw [if_neg hk] at hif
    obtain ⟨⟨ckvs', hchat', hc⟩, hm⟩ := hif
    rw [hchat, Option.getD_some] at hchat'
    injection hchat' with h
    subst h
    rw [hcid, Option.getD_some] at hc
    rw [hmid, Option.getD_some] at hm
    exact ⟨hc, hm⟩

/-- Witness for C4: a synthetic `callback_query` payload and a synthetic
`message` payload both yield the ids from their respective nested
locations. -/
theorem chat_and_message_id_extraction_witness :
    (UpdateChat.mk'
      [("update_id", .int 9),
       ("callback_query", .obj
         [("from", .obj [("id", .int 7)]), ("data", .str "1"),
          ("message", .obj
            [("message_id", .int 5), ("chat", .obj [("id", .int 42)])])])]
      none =
      .ok ⟨⟨none, "https://api.telegram.org/botNone"⟩, "callback_query",
        .int 7, .null, .str "text", .arr [.obj []], .int 42, .int 5⟩ ∧
      UpdateChat.chat_id
        ⟨⟨none, "https://api.telegram.org/botNone"⟩, "callback_query",
          .int 7, .null, .str "text", .arr [.obj []], .int 42, .int 5⟩ =
        .int 42 ∧
      UpdateChat.message_id
        ⟨⟨none, "https://api.telegram.org/botNone"⟩, "callback_query",
          .int 7, .null, .str "text", .arr [.obj []], .int 42, .int 5⟩ =
        .int 5) ∧
    (UpdateChat.mk'
      [("update_id", .int 10),
       ("message", .obj
         [("message_id", .int 8), ("chat", .obj [("id", .int 77)]),
          ("text", .str "hi")])] none =
      .ok ⟨⟨none, "https://api.telegram.org/botNone"⟩, "message", .null,
        .str "hi", .str "text", .arr [.obj []], .int 77, .int 8⟩ ∧
      UpdateChat.chat_id
        ⟨⟨none, "https://api.telegram.org/botNone"⟩, "message", .null,
          .str "hi", .str "text", .arr [.obj []], .int 77, .int 8⟩ =
        .int 77 ∧
      UpdateChat.message_id
        ⟨⟨none, "https://api.telegram.org/botNone"⟩, "message", .null,
          .str "hi", .str "text", .arr [.obj []], .int 77, .int 8⟩ =
        .int 8) := by
  constructor
  · have h : UpdateChat.mk'
        [("update_id", .int 9),
         ("callback_query", .obj
           [("from", .obj [("id", .int 7)]), ("data", .str "1"),
            ("message", .obj
              [("message_id", .int 5), ("chat", .obj [("id", .int 42)])])])]
        none =
        .ok ⟨⟨none, "https://api.telegram.org/botNone"⟩, "callback_query",
          .int 7, .null, .str "text", .arr [.obj []], .int 42, .int 5⟩ := rfl
    obtain ⟨hc, hm⟩ := (chat_and_message_id_extraction _ none).1 _ _ _
      (.int 42) (.int 5) _ h rfl rfl rfl rfl rfl
    exact ⟨h, hc, hm⟩
  · have h : UpdateChat.mk'
        [("update_id", .int 10),
         ("message", .obj
           [("message_id", .int 8), ("chat", .obj [("id", .int 77)]),
            ("text", .str "hi")])] none =
        .ok ⟨⟨none, "https://api.telegram.org/botNone"⟩, "message", .null,
          .str "hi", .str "text", .arr [.obj []], .int 77, .int 8⟩ := rfl
    obtain ⟨hc, hm⟩ := (chat_and_message_id_extraction _ none).2 "message" _ _
      (.int 77) (.int 8) _ h rfl (by decide) rfl rfl rfl
    exact ⟨h, hc, hm⟩

/-- C5 (amended): constructing an `UpdateChat` from a payload with fewer
than two top-level entries fails, raising the generic out-of-range
`IndexError` from `update_tuple[1]` rather than a typed error. -/
theorem short_payload_index_error
    (update : List (String × Json)) (tok : Option String)
    (h : update.length < 2) :
    UpdateChat.mk' update tok = .error .indexError := by
  have hget : update.get? 1 = none := by
    rw [List.get?_eq_none]
    omega
  simp only [UpdateChat.mk', Bot.init, ok_bind, hget]

/-- Witness for C5: the empty payload has fewer than two entries and
construction fails with `IndexError`. -/
theorem short_payload_index_error_witness :
    ([] : List (String × Json)).length < 2 ∧
      UpdateChat.mk' [] none = .error .indexError :=
  ⟨by decide, short_payload_index_error [] none (by decide)⟩

/-- Counterexample for C5 as stated: a one-key payload makes construction
fail with the generic `IndexError` — the source has no typed
MalformedPayload error kind at all, so the failure is an untyped crash. -/
theorem single_key_payload_raises_index_error :
    UpdateChat.mk' [("update_id", .int 1)] none = .error .indexError := rfl

/-- C6 (amended): constructing a `Bot` never fails, whatever the token:
the result is always `ok`, with no token available the `None` is
interpolated into the base URL as the literal text `"None"`, and no
validation or network call occurs. -/
theorem bot_init_never_fails (token : Option String) :
    Bot.init token =
      .ok ⟨token, "https://api.telegram.org/bot" ++ pyFStr token⟩ := rfl

/-- Counterexample for C6 as stated: construction with no token completes
normally — the `None` token is passed straight into the URL, so no
MissingCredential failure (indeed no failure of any kind) occurs. -/
theorem bot_init_none_token_completes :
    Bot.init none = .ok ⟨none, "https://api.telegram.org/botNone"⟩ := rfl

/-- C7: the `send_message` request body sends `reply_markup` and
`entities` as `json.dumps` string encodings, every other recognized field
natively, and the parse-mode field is `"HTML"` both when the parameter is
left at its default and when `None` is passed explicitly. -/
theorem send_message_body_encoding
    (chat_id : Int) (text : String) (message_thread_id : Option Int)
    (parse_mode : Option String) (entities : Json)
    (disable_web_page_preview disable_notification protect_content : Bool)
    (reply_to_message_id : Option Int) (allow_sending_without_reply : Bool)
    (reply_markup : Json) :
    Json.assoc? (Bot.send_message_data chat_id text message_thread_id
        parse_mode entities disable_web_page_preview disable_notification
        protect_content reply_to_message_id allow_sending_without_reply
        reply_markup) "reply_markup" = some (.str (json_dumps reply_markup)) ∧
    Json.assoc? (Bot.send_message_data chat_id text message_thread_id
        parse_mode entities disable_web_page_preview disable_notification
        protect_content reply_to_message_id allow_sending_without_reply
        reply_markup) "entities" = some (.str (json_dumps entities)) ∧
    Json.assoc? (Bot.send_message_data chat_id text message_thread_id
        parse_mode entities disable_web_page_preview disable_notification
        protect_content reply_to_message_id allow_sending_without_reply
        reply_markup) "chat_id" = some (.int chat_id) ∧
    Json.assoc? (Bot.send_message_data chat_id text message_thread_id
        parse_mode entities disable_web_page_preview disable_notification
        protect_content reply_to_message_id allow_sending_without_reply
        reply_markup) "text" = some (.str text) ∧
    Json.assoc? (Bot.send_message_data chat_id text message_thread_id
        parse_mode entities disable_web_page_preview disable_notification
        protect_content reply_to_message_id allow_sending_without_reply
        reply_markup) "parse_mode" = some (.str (parse_mode.getD "HTML")) ∧
    Json.assoc? (Bot.send_message_data chat_id text message_thread_id
        parse_mode entities disable_web_page_preview disable_notification
        protect_content reply_to_message_id allow_sending_without_reply
        reply_markup) "disable_web_page_preview"
      = some (.bool disable_web_page_preview) ∧
    Json.assoc? (Bot.send_message_data chat_id text message_thread_id
        parse_mode entities disable_web_page_preview disable_notification
        protect_content reply_to_message_id allow_sending_without_reply
        reply_markup) "disable_notification"
      = some (.bool disable_notification) ∧
    Json.assoc? (Bot.send_message_data chat_id text message_thread_id
        parse_mode entities disable_web_page_preview disable_notification
        protect_content reply_to_message_id allow_sending_without_reply
        reply_markup) "protect_content" = some (.bool protect_content) ∧
    Json.assoc? (Bot.send_message_data chat_id text message_thread_id
        parse_mode entities disable_web_page_preview disable_notification
        protect_content reply_to_message_id allow_sending_without_reply
        reply_markup) "reply_to_message_id"
      = some (optInt reply_to_message_id) ∧
    Json.assoc? (Bot.send_message_data chat_id text message_thread_id
        parse_mode entities disable_web_page_preview disable_notification
        protect_content reply_to_message_id allow_sending_without_reply
        reply_markup) "message_thread_id" = some (optInt message_thread_id) ∧
    Json.assoc? (Bot.send_message_data chat_id text message_thread_id
        parse_mode entities disable_web_page_preview disable_notification
        protect_content reply_to_message_id allow_sending_without_reply
        reply_markup) "allow_sending_without_reply"
      = some (.bool allow_sending_without_reply) ∧
    Json.assoc? (Bot.send_message_data chat_id text message_thread_id
        (some "HTML") entities disable_web_page_preview disable_notification
        protect_content reply_to_message_id allow_sending_without_reply
        reply_markup) "parse_mode" = some (.str "HTML") ∧
    Json.assoc? (Bot.send_message_data chat_id text message_thread_id
        none entities disable_web_page_preview disable_notification
        protect_content reply_to_message_id allow_sending_without_reply
        reply_markup) "parse_mode" = some (.str "HTML") :=
  ⟨rfl, rfl, rfl, rfl, rfl, rfl, rfl, rfl, rfl, rfl, rfl, rfl, rfl⟩

/-- C9 (amended): for a payload whose second key is not `"callback_query"`,
construction succeeds with defaulting lookups — provided the kind payload
is a dict whose `from`/`chat` values (when present) are dicts and whose
`entities` value (when present) is a nonempty list headed by a dict; each
of `text`, `message_id`, `from.id`, `chat.id` is `None` rather than an
error when the corresponding nested field is missing. -/
theorem non_callback_construction_succeeds
    (update : List (String × Json)) (tok : Option String) (k : String)
    (kvs : List (String × Json))
    (hget : update.get? 1 = some (k, .obj kvs))
    (hk : k ≠ "callback_query")
    (hfrom : ∀ j, Json.assoc? kvs "from" = some j → ∃ fk, j = .obj fk)
    (hchat : ∀ j, Json.assoc? kvs "chat" = some j → ∃ ck, j = .obj ck)
    (hents : ∀ j, Json.assoc? kvs "entities" = some j →
      ∃ ek er, j = .arr (.obj ek :: er)) :
    ∃ s, UpdateChat.mk' update tok = .ok s ∧
      s.update_type = k ∧
      s.text = (Json.assoc? kvs "text").getD .null ∧
      s.message_id = (Json.assoc? kvs "message_id").getD .null ∧
      (Json.assoc? kvs "text" = none → s.text = .null) ∧
      (Json.assoc? kvs "message_id" = none → s.message_id = .null) ∧
      (Json.assoc? kvs "from" = none → s.from_id = .null) ∧
      (Json.assoc? kvs "chat" = none → s.chat_id = .null) := by
  have hf' : ∃ fk, (Json.assoc? kvs "from").getD (.obj []) = .obj fk := by
    cases hf : Json.assoc? kvs "from" with
    | none => exact ⟨[], rfl⟩
    | some j =>
      obtain ⟨fk, rfl⟩ := hfrom j hf
      exact ⟨fk, rfl⟩
  have hc' : ∃ ck, (Json.assoc? kvs "chat").getD (.obj []) = .obj ck := by
    cases hc : Json.assoc? kvs "chat" with
    | none => exact ⟨[], rfl⟩
    | some j =>
      obtain ⟨ck, rfl⟩ := hchat j hc
      exact ⟨ck, rfl⟩
  have he' : ∃ ek er,
      (Json.assoc? kvs "entities").getD (.arr [.obj []]) = .arr (.obj ek :: er) := by
    cases he : Json.assoc? kvs "entities" with
    | none => exact ⟨[], [], rfl⟩
    | some j =>
      obtain ⟨ek, er, rfl⟩ := hents j he
      exact ⟨ek, er, rfl⟩
  obtain ⟨fk, hfk⟩ := hf'
  obtain ⟨ck, hck⟩ := hc'
  obtain ⟨ek, er, hek⟩ := he'
  refine ⟨⟨⟨tok, "https://api.telegram.org/bot" ++ pyFStr tok⟩, k,
      (Json.assoc? fk "id").getD .null,
      (Json.assoc? kvs "text").getD .null,
      (Json.assoc? ek "type").getD (.str "text"),
      .arr (.obj ek :: er),
      (Json.assoc? ck "id").getD .null,
      (Json.assoc? kvs "message_id").getD .null⟩, ?_, rfl, rfl, rfl,
    fun h => by rw [h]; rfl, fun h => by rw [h]; rfl,
    fun h => by
      rw [h, Option.getD_none] at hfk
      injection hfk with hfk
      subst hfk
      rfl,
    fun h => by
      rw [h, Option.getD_none] at hck
      injection hck with hck
      subst hck
      rfl⟩
  simp only [UpdateChat.mk', Bot.init, ok_bind, hget, pyGet_obj]
  rw [hfk]
  simp only [pyGet_obj, ok_bind]
  rw [hek]
  simp only [pySubscriptZero, ok_bind, pyGet_obj]
  rw [if_neg hk]
  rw [hck]
  simp only [pyGet_obj, ok_bind]

/-- Witness for C9 (amended): a `message` payload whose kind payload is an
empty dict constructs successfully with every extracted field `None`. -/
theorem non_callback_construction_succeeds_witness :
    UpdateChat.mk' [("update_id", .int 4), ("message", .obj [])] none =
      .ok ⟨⟨none, "https://api.telegram.org/botNone"⟩, "message", .null,
        .null, .str "text", .arr [.obj []], .null, .null⟩ ∧
    UpdateChat.text
      ⟨⟨none, "https://api.telegram.org/botNone"⟩, "message", .null,
        .null, .str "text", .arr [.obj []], .null, .null⟩ = .null ∧
    UpdateChat.from_id
      ⟨⟨none, "https://api.telegram.org/botNone"⟩, "message", .null,
        .null, .str "text", .arr [.obj []], .null, .null⟩ = .null ∧
    UpdateChat.chat_id
      ⟨⟨none, "https://api.telegram.org/botNone"⟩, "message", .null,
        .null, .str "text", .arr [.obj []], .null, .null⟩ = .null ∧
    UpdateChat.message_id
      ⟨⟨none, "https://api.telegram.org/botNone"⟩, "message", .null,
        .null, .str "text", .arr [.obj []], .null, .null⟩ = .null := by
  obtain ⟨s, hs, _, _, _, h1, h2, h3, h4⟩ :=
    non_callback_construction_succeeds
      [("update_id", .int 4), ("message", .obj [])] none "message" [] rfl
      (by decide) (fun j h => Option.noConfusion h)
      (fun j h => Option.noConfusion h) (fun j h => Option.noConfusion h)
  have hrfl : UpdateChat.mk' [("update_id", .int 4), ("message", .obj [])]
      none =
      .ok ⟨⟨none, "https://api.telegram.org/botNone"⟩, "message", .null,
        .null, .str "text", .arr [.obj []], .null, .null⟩ := rfl
  have hse : s = ⟨⟨none, "https://api.telegram.org/botNone"⟩, "message",
      .null, .null, .str "text", .arr [.obj []], .null, .null⟩ :=
    Except.ok.inj (hs.symm.trans hrfl)
  subst hse
  exact ⟨hrfl, h1 rfl, h3 rfl, h4 rfl, h2 rfl⟩

/-- Counterexample for C9 as stated: a non-callback payload carrying an
empty `entities` list makes `entities[0]` raise `IndexError`, so
construction does not always succeed. -/
theorem empty_entities_list_raises_index_error :
    UpdateChat.mk'
      [("update_id", .int 1), ("message", .obj [("entities", .arr [])])]
      none = .error .indexError := rfl

/-- C10: after a send, the handle's `sent_text` field holds the
`message_id` value extracted from the response payload (both fields read
`update_tuple[1][1].get("message_id")`), not the message's text. -/
theorem sent_text_is_message_id (token : Option String)
    (sent_msg : List (String × Json)) (s : SentChat)
    (h : SentChat.mk' token sent_msg = .ok s) :
    s.sent_text = s.message_id := by
  simp only [SentChat.mk', Bot.init, ok_bind] at h
  cases hget : sent_msg.get? 1 with
  | none =>
    rw [hget] at h
    exact Except.noConfusion h
  | some kv =>
    obtain ⟨k, v⟩ := kv
    rw [hget] at h
    obtain ⟨from_obj, h1, h⟩ := bindE_ok h
    obtain ⟨kvs, rfl, rfl⟩ := pyGet_ok h1
    obtain ⟨from_id, h2, h⟩ := bindE_ok h
    obtain ⟨fkvs, hfe, rfl⟩ := pyGet_ok h2
    simp only [pyGet_obj, ok_bind] at h
    obtain ⟨cid, h3, h⟩ := bindE_ok h
    obtain ⟨ckvs, hce, rfl⟩ := pyGet_ok h3
    injection h with h
    subst h
    rfl

/-- Witness for C10: a concrete sendMessage response whose result carries
`message_id` 99 yields a handle with `sent_text = message_id`. -/
theorem sent_text_is_message_id_witness :
    SentChat.mk' none
      [("ok", .bool true),
       ("result", .obj
         [("message_id", .int 99), ("chat", .obj [("id", .int 5)]),
          ("from", .obj [("id", .int 3)]), ("text", .str "hi")])] =
      .ok ⟨⟨none, "https://api.telegram.org/botNone"⟩, "result", .int 3,
        .int 5, .int 99, .int 99⟩ ∧
    SentChat.sent_text
      ⟨⟨none, "https://api.telegram.org/botNone"⟩, "result", .int 3,
        .int 5, .int 99, .int 99⟩ =
      SentChat.message_id
        ⟨⟨none, "https://api.telegram.org/botNone"⟩, "result", .int 3,
          .int 5, .int 99, .int 99⟩ := by
  have h : SentChat.mk' none
      [("ok", .bool true),
       ("result", .obj
         [("message_id", .int 99), ("chat", .obj [("id", .int 5)]),
          ("from", .obj [("id", .int 3)]), ("text", .str "hi")])] =
      .ok ⟨⟨none, "https://api.telegram.org/botNone"⟩, "result", .int 3,
        .int 5, .int 99, .int 99⟩ := rfl
  exact ⟨h, sent_text_is_message_id none _ _ h⟩

end Tg
